import Mathlib

/-!
Shallow embedding of the `epf-flower-data-science` service (two Python files:
`src/api/routes/data.py` and `src/services/data.py`).

The repository wires three HTTP route handlers around pandas / scikit-learn
calls.  Machine floats are embedded as exact rationals `ℚ`; the per-column
scale produced by `StandardScaler` (the square root of the column variance)
is passed as an explicit parameter `s` characterised by `0 ≤ s ∧ s ^ 2 = var`,
since square roots leave `ℚ`.  The pseudo-random permutation drawn by
`train_test_split(random_state=42)` is likewise passed explicitly as a
permutation of the row indices.  Both follow the documented library
semantics, which the source calls directly.
-/

/-- Arithmetic mean of a list of rationals (0 for the empty list, as the
division by zero convention). -/
def listMean (xs : List ℚ) : ℚ := xs.sum / xs.length

/-- Population variance (ddof = 0, as numpy/sklearn default) of a list of
rationals. -/
def listVar (xs : List ℚ) : ℚ := (xs.map (fun x => (x - listMean xs) ^ 2)).sum / xs.length

/-- sklearn `_handle_zeros_in_scale`: a zero scale (constant column) is
replaced by 1 so the transform never divides by zero. -/
def scaleOf (s : ℚ) : ℚ := if s = 0 then 1 else s

/-- Column `j` of a row-major matrix (rows shorter than `j + 1` contribute
nothing; all rows have uniform width in every use below). -/
def getCol (rows : List (List ℚ)) (j : Nat) : List ℚ := rows.filterMap (fun r => r[j]?)

/-- The per-column means fitted by `StandardScaler.fit` over a matrix of
width `w`. -/
def fitMeans (rows : List (List ℚ)) (w : Nat) : List ℚ :=
  (List.range w).map (fun j => listMean (getCol rows j))

/-- One row transformed by a fitted `StandardScaler`: entry-wise
`(x - mean_j) / scale_j`. -/
def stdRow (means scales : List ℚ) (r : List ℚ) : List ℚ :=
  List.zipWith (fun x ms => (x - ms.1) / scaleOf ms.2) r (means.zip scales)

/-- `StandardScaler.fit_transform` on a row-major matrix of width `w`:
fit per-column means over the full matrix, then transform every row.
The per-column scales (square roots of the column variances) are the
explicit argument `scales`. -/
def StandardScaler.fit_transform (rows : List (List ℚ)) (scales : List ℚ) (w : Nat) :
    List (List ℚ) :=
  rows.map (stdRow (fitMeans rows w) scales)

/-- The distinct values of a list in first-occurrence order. -/
def uniqueFirstOcc {α : Type} [DecidableEq α] (y : List α) : List α :=
  y.foldl (fun acc v => if v ∈ acc then acc else acc ++ [v]) []

/-- `numpy.unique` as used by `LabelEncoder.fit`: the distinct values of the
input, in ascending sorted order.  Stored in the fitted attribute. -/
def labelClasses {α : Type} [LinearOrder α] [DecidableEq α] (y : List α) : List α :=
  List.insertionSort (· ≤ ·) (uniqueFirstOcc y)

/-- `LabelEncoder.fit_transform`: each value is replaced by its index in the
sorted list of distinct values. -/
def LabelEncoder.fit_transform {α : Type} [LinearOrder α] [DecidableEq α] (y : List α) :
    List Nat :=
  y.map (fun v => (labelClasses y).indexOf v)

/-- Modelled from the spec: the spec's words "an integer code per distinct
label value, assigned by first-occurrence order" as an encoder, for
comparison with the library encoder embedded above. -/
def specFirstOccEncode {α : Type} [DecidableEq α] (y : List α) : List Nat :=
  y.map (fun v => (uniqueFirstOcc y).indexOf v)

/-- `ceil(0.2 * n)`: sklearn's test-set size for `test_size=0.2` on `n`
samples. -/
def nTestOf (n : Nat) : Nat := (n + 4) / 5

/-- Select the rows of `xs` at the given indices (out-of-range indices
contribute nothing; every use below has all indices in range). -/
def selectRows {α : Type} (xs : List α) (idx : List Nat) : List α :=
  idx.filterMap (fun i => xs[i]?)

/-- `train_test_split(X, y, test_size=0.2, random_state=42)`.  The seeded
shuffle is the explicit argument `perm`, a permutation of the row indices:
the test set is the first `ceil(0.2 * n)` shuffled indices, the train set
the rest, mirroring sklearn's `ShuffleSplit`. -/
def train_test_split {α β : Type} (X : List α) (y : List β) (perm : List Nat) :
    List α × List α × List β × List β :=
  let nt := nTestOf X.length
  let testIdx := perm.take nt
  let trainIdx := perm.drop nt
  (selectRows X trainIdx, selectRows X testIdx, selectRows y trainIdx, selectRows y testIdx)

/-- A cell of a pandas DataFrame read from the iris CSV: numeric or string. -/
inductive Cell : Type
  | num (q : ℚ)
  | str (s : String)
deriving DecidableEq, Repr

/-- Numeric view of a cell (feature columns of the iris table are numeric). -/
def Cell.toQ : Cell → ℚ
  | .num q => q
  | .str _ => 0

/-- String view of a cell (the species column holds strings). -/
def Cell.toStr : Cell → String
  | .num _ => ""
  | .str s => s

/-- A pandas DataFrame as read by `pd.read_csv`: a header of column names
and row-major cells. -/
structure Frame : Type where
  header : List String
  rows : List (List Cell)
deriving Repr

/-- `df.drop(labels, axis=1)` / `df.drop(columns=labels)`: remove the named
columns; pandas raises `KeyError` when any label is absent. -/
def Frame.dropCols (f : Frame) (labels : List String) : Except String Frame :=
  if labels.all (fun l => f.header.contains l) then
    Except.ok
      { header := f.header.filter (fun c => !labels.contains c),
        rows := f.rows.map (fun r =>
          (f.header.zip r).filterMap
            (fun p => if labels.contains p.1 then none else some p.2)) }
  else
    Except.error ("KeyError: " ++ String.intercalate ", " labels)

/-- `df[c]`: the column named `c`; pandas raises `KeyError` when absent. -/
def Frame.col (f : Frame) (c : String) : Except String (List Cell) :=
  if f.header.contains c then
    Except.ok (f.rows.map (fun r => (((f.header.zip r).find? (fun p => p.1 == c)).map
      Prod.snd).getD (Cell.str "")))
  else
    Except.error ("KeyError: " ++ c)

/-- `df.to_dict(orient="records")`: one record per row, mapping each header
name to the cell below it, in file row order. -/
def Frame.toRecords (f : Frame) : List (List (String × Cell)) :=
  f.rows.map (fun r => f.header.zip r)

/-- The header of the lowercase-schema `iris.csv` the route handler's code
assumes (its comment: "Features: sepal_length, sepal_width, petal_length,
petal_width"; target `species`). -/
def irisHeader : List String :=
  ["sepal_length", "sepal_width", "petal_length", "petal_width", "species"]

/-- Outcome of a FastAPI route handler: a 200 payload, or an
`HTTPException(status_code, detail)`. -/
inductive RouteResult (α : Type) : Type
  | ok (payload : α)
  | err (status : Nat) (detail : String)
deriving DecidableEq, Repr

/-- Process state the acquisition route touches: environment variables,
existing directories, existing files. -/
structure SysState : Type where
  env : List (String × String)
  dirs : List String
  files : List String
deriving DecidableEq, Repr

/-- `os.environ[k] = v`. -/
def setEnvVar (env : List (String × String)) (k v : String) : List (String × String) :=
  (k, v) :: env.filter (fun p => p.1 ≠ k)

/-- Environment lookup. -/
def getEnvVar (env : List (String × String)) (k : String) : Option String :=
  (env.find? (fun p => p.1 == k)).map Prod.snd

/-- `DATA_PATH = Path("src/data")` in `routes/data.py`. -/
def DATA_PATH : String := "src/data"

/-- `DATASET_NAME = "iris.csv"` in `routes/data.py`. -/
def DATASET_NAME : String := "iris.csv"

/-- `KAGGLE_CREDENTIALS = Path("src/config/kaggle.json")`. -/
def KAGGLE_CREDENTIALS : String := "src/config/kaggle.json"

/-- Parent directory of the credentials path, `str(KAGGLE_CREDENTIALS.parent)`. -/
def KAGGLE_CREDENTIALS_PARENT : String := "src/config"

/-- The `GET /datasets/\x7bname\x7d` handler `download_dataset`.  The remote
client `kagglehub.dataset_download` is the explicit argument `client`,
mapping the identifier to the list of file names it wrote or to an error
message.  Returns the route result and the final process state. -/
def download_dataset (s : SysState) (name : String)
    (client : String → Except String (List String)) :
    RouteResult (String × List String) × SysState :=
  if KAGGLE_CREDENTIALS ∈ s.files then
    let s1 : SysState :=
      { s with
        env := setEnvVar s.env "KAGGLE_CONFIG_DIR" KAGGLE_CREDENTIALS_PARENT,
        dirs := if DATA_PATH ∈ s.dirs then s.dirs else DATA_PATH :: s.dirs }
    match client name with
    | Except.ok fileList =>
        (RouteResult.ok ("Dataset \x27" ++ name ++ "\x27 downloaded successfully.", fileList), s1)
    | Except.error e =>
        (RouteResult.err 500 ("Failed to download dataset: " ++ e), s1)
  else
    (RouteResult.err 500
      ("Kaggle credentials not found. Place kaggle.json at " ++ KAGGLE_CREDENTIALS ++ "."), s)

/-- The 404 detail both iris routes raise when the dataset file is absent. -/
def notFoundDetail : String :=
  "Dataset \x27" ++ DATASET_NAME ++ "\x27 not found. Please download it first."

/-- The `GET /load-iris` handler `load_iris_dataset`.  `fileExists` embeds
`DATASET_PATH.is_file()`; `readResult` embeds `pd.read_csv`, which either
yields the parsed frame or raises. -/
def load_iris_dataset (fileExists : Bool) (readResult : Except String Frame) :
    RouteResult (List (List (String × Cell))) :=
  if fileExists then
    match readResult with
    | Except.ok df => RouteResult.ok df.toRecords
    | Except.error e => RouteResult.err 500 ("Error loading dataset: " ++ e)
  else
    RouteResult.err 404 notFoundDetail

/-- Payload of a successful `GET /preprocess-iris`: train/test features and
labels, as in the handler's returned JSON. -/
structure SplitOut : Type where
  trainF : List (List ℚ)
  testF : List (List ℚ)
  trainL : List Nat
  testL : List Nat
deriving DecidableEq, Repr

/-- The `try:` body of `preprocess_iris_data` in `routes/data.py`:
drop the lowercase `species` column, encode `species`, standardize the
features, split 80/20.  `scales` and `perm` are the explicit sklearn
parameters described above. -/
def preprocess_pipeline (df : Frame) (scales : List ℚ) (perm : List Nat) :
    Except String SplitOut := do
  let X ← df.dropCols ["species"]
  let yCells ← df.col "species"
  let y := yCells.map Cell.toStr
  let yEncoded := LabelEncoder.fit_transform y
  let Xq := X.rows.map (fun r => r.map Cell.toQ)
  let w := (Xq.headD []).length
  let Xscaled := StandardScaler.fit_transform Xq scales w
  let (XTrain, XTest, yTrain, yTest) := train_test_split Xscaled yEncoded perm
  return { trainF := XTrain, testF := XTest, trainL := yTrain, testL := yTest }

/-- The `GET /preprocess-iris` handler `preprocess_iris_data`:
404 when the dataset file is absent, otherwise run read + pipeline and map
any raised error to an HTTP 500 carrying its message. -/
def preprocess_iris_data (fileExists : Bool) (readResult : Except String Frame)
    (scales : List ℚ) (perm : List Nat) : RouteResult SplitOut :=
  if fileExists then
    match (do preprocess_pipeline (← readResult) scales perm : Except String SplitOut) with
    | Except.ok out => RouteResult.ok out
    | Except.error e => RouteResult.err 500 ("Error preprocessing dataset: " ++ e)
  else
    RouteResult.err 404 notFoundDetail

/-- `preprocess_iris_data` of `services/data.py`: drop `Species` and `Id`,
encode `Species`, standardize; no split, the raw arrays are returned. -/
def services_preprocess_iris_data (df : Frame) (scales : List ℚ) :
    Except String (List (List ℚ) × List Nat) := do
  let X ← df.dropCols ["Species", "Id"]
  let yCells ← df.col "Species"
  let y := yCells.map Cell.toStr
  let yEncoded := LabelEncoder.fit_transform y
  let Xq := X.rows.map (fun r => r.map Cell.toQ)
  let w := (Xq.headD []).length
  let Xscaled := StandardScaler.fit_transform Xq scales w
  return (Xscaled, yEncoded)

lemma getEnvVar_setEnvVar (env : List (String × String)) (k v : String) :
    getEnvVar (setEnvVar env k v) k = some v := by
  simp [getEnvVar, setEnvVar]

/-- C4: for every dataset identifier, if the credentials file is absent at
the known path the acquisition route fails with HTTP 500, no download is
attempted (the result is the same for every client), the state is
untouched, and the outcome does not depend on the identifier. -/
theorem download_dataset_no_credentials (s : SysState) (name₁ name₂ : String)
    (client₁ client₂ : String → Except String (List String))
    (h : KAGGLE_CREDENTIALS ∉ s.files) :
    download_dataset s name₁ client₁ =
      (RouteResult.err 500
        ("Kaggle credentials not found. Place kaggle.json at " ++ KAGGLE_CREDENTIALS ++ "."),
        s) ∧
    download_dataset s name₁ client₁ = download_dataset s name₂ client₂ := by
  constructor <;> simp [download_dataset, h]

/-- Witness for C4 at a concrete empty state. -/
theorem download_dataset_no_credentials_witness :
    download_dataset ⟨[], [], []⟩ "uciml/iris" (fun _ => Except.ok ["iris.csv"]) =
      (RouteResult.err 500
        ("Kaggle credentials not found. Place kaggle.json at " ++ KAGGLE_CREDENTIALS ++ "."),
        (⟨[], [], []⟩ : SysState)) :=
  (download_dataset_no_credentials ⟨[], [], []⟩ "uciml/iris" "other"
    (fun _ => Except.ok ["iris.csv"]) (fun _ => Except.ok []) (by simp)).1

/-- C3: with the credentials file present and a valid identifier (the
remote client succeeds, writing a non-empty file set), the acquisition
route creates the target data directory if absent and returns the
non-empty list of file names written. -/
theorem download_dataset_success (s : SysState) (name : String)
    (client : String → Except String (List String)) (files : List String)
    (hcred : KAGGLE_CREDENTIALS ∈ s.files)
    (hclient : client name = Except.ok files) (hne : files ≠ []) :
    (download_dataset s name client).1 =
      RouteResult.ok ("Dataset \x27" ++ name ++ "\x27 downloaded successfully.", files) ∧
    files ≠ [] ∧
    DATA_PATH ∈ (download_dataset s name client).2.dirs := by
  refine ⟨?_, hne, ?_⟩
  · simp [download_dataset, if_pos hcred, hclient]
  · simp only [download_dataset, if_pos hcred, hclient]
    split <;> simp_all

/-- Witness for C3: fresh state (no data directory yet), client writing one
file. -/
theorem download_dataset_success_witness :
    (download_dataset ⟨[], [], [KAGGLE_CREDENTIALS]⟩ "uciml/iris"
        (fun _ => Except.ok ["iris.csv"])).1 =
      RouteResult.ok ("Dataset \x27uciml/iris\x27 downloaded successfully.", ["iris.csv"]) ∧
    (["iris.csv"] : List String) ≠ [] ∧
    DATA_PATH ∈ (download_dataset ⟨[], [], [KAGGLE_CREDENTIALS]⟩ "uciml/iris"
        (fun _ => Except.ok ["iris.csv"])).2.dirs := by
  have h := download_dataset_success ⟨[], [], [KAGGLE_CREDENTIALS]⟩ "uciml/iris"
    (fun _ => Except.ok ["iris.csv"]) ["iris.csv"] (by simp) rfl (by simp)
  simpa using h

/-- C10: with credentials present, the acquisition route sets the
`KAGGLE_CONFIG_DIR` environment variable and creates the data directory
before the download; when the download fails these two side effects are
still in the final state alongside the HTTP 500 result — the error path
restores nothing. -/
theorem download_dataset_failure_keeps_side_effects (s : SysState) (name : String)
    (client : String → Except String (List String)) (e : String)
    (hcred : KAGGLE_CREDENTIALS ∈ s.files)
    (hclient : client name = Except.error e) :
    (download_dataset s name client).1 =
      RouteResult.err 500 ("Failed to download dataset: " ++ e) ∧
    getEnvVar (download_dataset s name client).2.env "KAGGLE_CONFIG_DIR" =
      some KAGGLE_CREDENTIALS_PARENT ∧
    DATA_PATH ∈ (download_dataset s name client).2.dirs := by
  refine ⟨?_, ?_, ?_⟩
  · simp [download_dataset, if_pos hcred, hclient]
  · simp only [download_dataset, if_pos hcred, hclient]
    exact getEnvVar_setEnvVar ..
  · simp only [download_dataset, if_pos hcred, hclient]
    split <;> simp_all

/-- Witness for C10: a state with a stale `KAGGLE_CONFIG_DIR` value and no
data directory; the failing download leaves both mutations behind. -/
theorem download_dataset_failure_keeps_side_effects_witness :
    (download_dataset ⟨[("KAGGLE_CONFIG_DIR", "elsewhere")], [], [KAGGLE_CREDENTIALS]⟩
        "uciml/iris" (fun _ => Except.error "network down")).1 =
      RouteResult.err 500 ("Failed to download dataset: network down") ∧
    getEnvVar (download_dataset ⟨[("KAGGLE_CONFIG_DIR", "elsewhere")], [], [KAGGLE_CREDENTIALS]⟩
        "uciml/iris" (fun _ => Except.error "network down")).2.env "KAGGLE_CONFIG_DIR" =
      some KAGGLE_CREDENTIALS_PARENT ∧
    DATA_PATH ∈ (download_dataset ⟨[("KAGGLE_CONFIG_DIR", "elsewhere")], [], [KAGGLE_CREDENTIALS]⟩
        "uciml/iris" (fun _ => Except.error "network down")).2.dirs :=
  download_dataset_failure_keeps_side_effects
    ⟨[("KAGGLE_CONFIG_DIR", "elsewhere")], [], [KAGGLE_CREDENTIALS]⟩
    "uciml/iris" (fun _ => Except.error "network down") "network down" (by simp) rfl

/-- C6: when the dataset file is absent both iris routes return HTTP 404,
the detail names the missing dataset (`iris.csv` occurs in it literally),
and no read or transform is performed: the result is the same whatever the
read and pipeline would have produced. -/
theorem iris_routes_404_when_file_absent (read₁ read₂ : Except String Frame)
    (scales₁ scales₂ : List ℚ) (perm₁ perm₂ : List Nat) :
    load_iris_dataset false read₁ = RouteResult.err 404 notFoundDetail ∧
    preprocess_iris_data false read₁ scales₁ perm₁ = RouteResult.err 404 notFoundDetail ∧
    load_iris_dataset false read₁ = load_iris_dataset false read₂ ∧
    preprocess_iris_data false read₁ scales₁ perm₁ =
      preprocess_iris_data false read₂ scales₂ perm₂ ∧
    (∃ pre post : String, notFoundDetail = pre ++ DATASET_NAME ++ post) :=
  ⟨rfl, rfl, rfl, rfl, "Dataset \x27", "\x27 not found. Please download it first.", rfl⟩

/-- C8: whatever error the read or the transform raises inside the
preprocess handler, the handler catches it and returns HTTP 500 whose
detail carries the original message verbatim; the mapping is one uniform
catch, independent of the failure's kind. -/
theorem preprocess_iris_data_error_passthrough (readResult : Except String Frame)
    (scales : List ℚ) (perm : List Nat) (e : String)
    (h : (do preprocess_pipeline (← readResult) scales perm : Except String SplitOut) =
      Except.error e) :
    preprocess_iris_data true readResult scales perm =
      RouteResult.err 500 ("Error preprocessing dataset: " ++ e) := by
  simp [preprocess_iris_data, h]

/-- Witness for C8: a read failure with message "boom" surfaces as
HTTP 500 with "boom" attached. -/
theorem preprocess_iris_data_error_passthrough_witness :
    preprocess_iris_data true (Except.error "boom") [] [] =
      RouteResult.err 500 ("Error preprocessing dataset: " ++ "boom") :=
  preprocess_iris_data_error_passthrough (Except.error "boom") [] [] "boom" rfl

/-- C5: loading a present CSV with `N` well-formed data rows returns
exactly `N` records, each record's key list is exactly the CSV header, and
record `i` is built from data row `i` (file row order preserved). -/
theorem load_iris_dataset_records (df : Frame)
    (hw : ∀ r ∈ df.rows, r.length = df.header.length) :
    load_iris_dataset true (Except.ok df) = RouteResult.ok df.toRecords ∧
    df.toRecords.length = df.rows.length ∧
    (∀ rec ∈ df.toRecords, rec.map Prod.fst = df.header) ∧
    (∀ i : Nat, df.toRecords.get? i = (df.rows.get? i).map (fun r => df.header.zip r)) := by
  refine ⟨rfl, by simp [Frame.toRecords], ?_, ?_⟩
  · intro rec hrec
    simp only [Frame.toRecords, List.mem_map] at hrec
    obtain ⟨r, hr, rfl⟩ := hrec
    exact List.map_fst_zip _ _ (le_of_eq (hw r hr).symm)
  · intro i
    simp [Frame.toRecords, List.get?_map]

/-- Witness for C5 on a 2-row, 2-column frame. -/
theorem load_iris_dataset_records_witness :
    load_iris_dataset true (Except.ok ⟨["a", "b"],
        [[Cell.num 1, Cell.str "x"], [Cell.num 2, Cell.str "y"]]⟩) =
      RouteResult.ok (Frame.toRecords ⟨["a", "b"],
        [[Cell.num 1, Cell.str "x"], [Cell.num 2, Cell.str "y"]]⟩) ∧
    (Frame.toRecords ⟨["a", "b"],
        [[Cell.num 1, Cell.str "x"], [Cell.num 2, Cell.str "y"]]⟩).length = 2 ∧
    (∀ rec ∈ Frame.toRecords ⟨["a", "b"],
        [[Cell.num 1, Cell.str "x"], [Cell.num 2, Cell.str "y"]]⟩,
      rec.map Prod.fst = ["a", "b"]) ∧
    (∀ i : Nat, (Frame.toRecords ⟨["a", "b"],
        [[Cell.num 1, Cell.str "x"], [Cell.num 2, Cell.str "y"]]⟩).get? i =
      (([[Cell.num 1, Cell.str "x"], [Cell.num 2, Cell.str "y"]] :
        List (List Cell)).get? i).map (fun r => (["a", "b"] : List String).zip r)) := by
  have h := load_iris_dataset_records ⟨["a", "b"],
    [[Cell.num 1, Cell.str "x"], [Cell.num 2, Cell.str "y"]]⟩ (by simp)
  exact h

lemma mem_foldl_uniq {α : Type} [DecidableEq α] (y : List α) :
    ∀ (acc : List α) (x : α),
      (x ∈ y.foldl (fun acc v => if v ∈ acc then acc else acc ++ [v]) acc ↔
        x ∈ acc ∨ x ∈ y) := by
  induction y with
  | nil => simp
  | cons a t ih =>
    intro acc x
    simp only [List.foldl_cons]
    rw [ih]
    by_cases h : a ∈ acc
    · simp only [if_pos h, List.mem_cons]
      constructor
      · tauto
      · rintro (hx | rfl | hx)
        · exact Or.inl hx
        · exact Or.inl h
        · exact Or.inr hx
    · simp only [if_neg h, List.mem_append, List.mem_singleton, List.mem_cons]
      tauto

lemma nodup_foldl_uniq {α : Type} [DecidableEq α] (y : List α) :
    ∀ (acc : List α), acc.Nodup →
      (y.foldl (fun acc v => if v ∈ acc then acc else acc ++ [v]) acc).Nodup := by
  induction y with
  | nil => exact fun _ h => h
  | cons a t ih =>
    intro acc hacc
    simp only [List.foldl_cons]
    by_cases h : a ∈ acc
    · rw [if_pos h]; exact ih acc hacc
    · rw [if_neg h]
      exact ih _ (by simp [List.nodup_append, hacc, h])

lemma mem_uniqueFirstOcc {α : Type} [DecidableEq α] {y : List α} {x : α} :
    x ∈ uniqueFirstOcc y ↔ x ∈ y := by
  rw [uniqueFirstOcc, mem_foldl_uniq]; simp

lemma nodup_uniqueFirstOcc {α : Type} [DecidableEq α] (y : List α) :
    (uniqueFirstOcc y).Nodup :=
  nodup_foldl_uniq y [] List.nodup_nil

lemma labelClasses_perm {α : Type} [LinearOrder α] [DecidableEq α] (y : List α) :
    (labelClasses y).Perm (uniqueFirstOcc y) :=
  List.perm_insertionSort _ _

lemma mem_labelClasses {α : Type} [LinearOrder α] [DecidableEq α] {y : List α} {x : α} :
    x ∈ labelClasses y ↔ x ∈ y := by
  rw [(labelClasses_perm y).mem_iff, mem_uniqueFirstOcc]

lemma nodup_labelClasses {α : Type} [LinearOrder α] [DecidableEq α] (y : List α) :
    (labelClasses y).Nodup :=
  (labelClasses_perm y).nodup_iff.mpr (nodup_uniqueFirstOcc y)

lemma sorted_labelClasses {α : Type} [LinearOrder α] [DecidableEq α] (y : List α) :
    (labelClasses y).Sorted (· ≤ ·) :=
  List.sorted_insertionSort _ _

lemma sorted_nodup_indexOf_eq_countP {α : Type} [LinearOrder α] [DecidableEq α] :
    ∀ (l : List α), l.Sorted (· ≤ ·) → l.Nodup → ∀ v ∈ l,
      l.indexOf v = l.countP (fun x => decide (x < v))
  | [], _, _, v, hv => by simp at hv
  | a :: t, hs, hn, v, hv => by
    rw [List.sorted_cons] at hs
    rw [List.nodup_cons] at hn
    rcases List.mem_cons.mp hv with rfl | hvt
    · rw [List.indexOf_cons_self, List.countP_cons]
      have ht : t.countP (fun x => decide (x < v)) = 0 :=
        List.countP_eq_zero.mpr (fun x hx => by simp [not_lt.mpr (hs.1 x hx)])
      simp [ht]
    · have hne : v ≠ a := fun h => hn.1 (h ▸ hvt)
      rw [List.indexOf_cons_ne _ (Ne.symm hne), List.countP_cons]
      have hav : a < v := lt_of_le_of_ne (hs.1 v hvt) (Ne.symm hne)
      rw [sorted_nodup_indexOf_eq_countP t hs.2 hn.2 v hvt]
      simp [hav]

/-- C1 counterexample: on the target vector ["b", "a"] the fitted encoder
assigns codes by sorted order ("a" ↦ 0, "b" ↦ 1), so the encoded vector is
[1, 0]; first-occurrence order, as the claim states it, would assign
"b" ↦ 0, "a" ↦ 1 and yield [0, 1]. -/
theorem label_encoder_not_first_occurrence :
    LabelEncoder.fit_transform ["b", "a"] = [1, 0] ∧
    specFirstOccEncode ["b", "a"] = [0, 1] ∧
    LabelEncoder.fit_transform ["b", "a"] ≠ specFirstOccEncode ["b", "a"] := by
  have hba : ¬(("b" : String) ≤ "a") := by rw [String.le_iff_toList_le]; decide
  have hcls : labelClasses ["b", "a"] = ["a", "b"] := by
    have huni : uniqueFirstOcc ["b", "a"] = ["b", "a"] := by decide
    rw [labelClasses, huni]
    simp [List.insertionSort, List.orderedInsert, hba]
  have henc : LabelEncoder.fit_transform ["b", "a"] = [1, 0] := by
    rw [LabelEncoder.fit_transform, hcls]; decide
  have hspec : specFirstOccEncode ["b", "a"] = [0, 1] := by decide
  exact ⟨henc, hspec, by rw [henc, hspec]; decide⟩

/-- C1 (amended): the fitted label encoder assigns each distinct label the
rank of that label in the ascending sorted order of the distinct labels
(the number of distinct labels strictly below it) — not first-occurrence
order; the codes are dense integers starting at 0 (the code set is exactly
\x7b0, …, k−1\x7d for k distinct labels), and the encoded vector has the
same length as the input. -/
theorem label_encoder_sorted_dense (y : List String) :
    (LabelEncoder.fit_transform y).length = y.length ∧
    (∀ c, c ∈ LabelEncoder.fit_transform y ↔ c < (labelClasses y).length) ∧
    LabelEncoder.fit_transform y =
      y.map (fun v => (labelClasses y).countP (fun x => decide (x < v))) := by
  refine ⟨by simp [LabelEncoder.fit_transform], ?_, ?_⟩
  · intro c
    constructor
    · intro hc
      simp only [LabelEncoder.fit_transform, List.mem_map] at hc
      obtain ⟨v, hv, rfl⟩ := hc
      exact List.indexOf_lt_length.mpr (mem_labelClasses.mpr hv)
    · intro hc
      have hv : (labelClasses y).get ⟨c, hc⟩ ∈ labelClasses y := List.get_mem _ _ _
      refine List.mem_map.mpr ⟨(labelClasses y).get ⟨c, hc⟩, mem_labelClasses.mp hv, ?_⟩
      have hidx := List.indexOf_get
        (a := (labelClasses y).get ⟨c, hc⟩) (l := labelClasses y)
        (List.indexOf_lt_length.mpr hv)
      exact Fin.mk.injEq .. ▸ (nodup_labelClasses y).get_inj_iff.mp hidx
  · refine List.map_congr_left (fun v hv => ?_)
    have h := sorted_nodup_indexOf_eq_countP (labelClasses y) (sorted_labelClasses y)
      (nodup_labelClasses y) v (mem_labelClasses.mpr hv)
    rw [h]
    congr 1
    funext x
    congr 1

lemma filterMap_congr_some {α β : Type} (f : α → Option β) (g : α → β) :
    ∀ (l : List α), (∀ a ∈ l, f a = some (g a)) → l.filterMap f = l.map g
  | [], _ => rfl
  | a :: t, h => by
    rw [List.filterMap_cons, h a (List.mem_cons_self a t), List.map_cons,
      filterMap_congr_some f g t (fun b hb => h b (List.mem_cons_of_mem a hb))]

lemma sum_map_center_div (xs : List ℚ) (μ c : ℚ) :
    (xs.map (fun x => (x - μ) / c)).sum = (xs.sum - xs.length * μ) / c := by
  induction xs with
  | nil => simp
  | cons a t ih =>
    simp only [List.map_cons, List.sum_cons, List.length_cons, ih, div_add_div_same]
    congr 1
    push_cast
    ring

lemma sum_map_sq_div (xs : List ℚ) (μ c : ℚ) :
    (xs.map (fun x => ((x - μ) / c) ^ 2)).sum = (xs.map (fun x => (x - μ) ^ 2)).sum / c ^ 2 := by
  induction xs with
  | nil => simp
  | cons a t ih =>
    rw [List.map_cons, List.sum_cons, ih, div_pow, div_add_div_same, List.map_cons,
      List.sum_cons]

lemma listMean_center_div (xs : List ℚ) (c : ℚ) :
    listMean (xs.map (fun x => (x - listMean xs) / c)) = 0 := by
  rcases Nat.eq_zero_or_pos xs.length with h0 | h0
  · rw [List.length_eq_zero] at h0
    subst h0
    simp [listMean]
  · have hn : (xs.length : ℚ) ≠ 0 := Nat.cast_ne_zero.mpr (Nat.pos_iff_ne_zero.mp h0)
    rw [listMean, sum_map_center_div, List.length_map]
    have hc : xs.sum - (xs.length : ℚ) * listMean xs = 0 := by
      rw [listMean]
      field_simp
    rw [hc, zero_div, zero_div]

lemma listVar_center_div (xs : List ℚ) (s : ℚ) (hs : s ^ 2 = listVar xs)
    (hvar : listVar xs ≠ 0) :
    listVar (xs.map (fun x => (x - listMean xs) / scaleOf s)) = 1 := by
  have hsne : s ≠ 0 := by
    intro h
    apply hvar
    rw [← hs, h]
    ring
  have hsc : scaleOf s = s := if_neg hsne
  have hn0 : xs.length ≠ 0 := by
    intro h
    apply hvar
    rw [List.length_eq_zero] at h
    subst h
    simp [listVar, listMean]
  have hn : (xs.length : ℚ) ≠ 0 := Nat.cast_ne_zero.mpr hn0
  have hmean := listMean_center_div xs (scaleOf s)
  rw [listVar, hmean]
  simp only [sub_zero, List.map_map, List.length_map]
  have hcomp : ((fun y => y ^ 2) ∘ fun x => (x - listMean xs) / scaleOf s) =
      (fun x => ((x - listMean xs) / scaleOf s) ^ 2) := rfl
  rw [hcomp, hsc, sum_map_sq_div]
  have hS : (xs.map (fun x => (x - listMean xs) ^ 2)).sum = s ^ 2 * xs.length := by
    rw [hs, listVar]
    field_simp
  rw [hS]
  field_simp

lemma getElem?_stdRow {means scales r : List ℚ} {w j : Nat}
    (hm : means.length = w) (hs : scales.length = w) (hr : r.length = w) (hj : j < w) :
    (stdRow means scales r)[j]? =
      some ((r[j]?.getD 0 - means[j]?.getD 0) / scaleOf (scales[j]?.getD 0)) := by
  have hjr : j < r.length := hr ▸ hj
  have hjm : j < means.length := hm ▸ hj
  have hjs : j < scales.length := hs ▸ hj
  simp [stdRow, List.getElem?_zipWith, List.zip_eq_zipWith, List.getElem?_eq_getElem,
    hjr, hjm, hjs]

lemma getCol_map_width {rows : List (List ℚ)} {w j : Nat}
    (hw : ∀ r ∈ rows, r.length = w) (hj : j < w) :
    getCol rows j = rows.map (fun r => r[j]?.getD 0) := by
  rw [getCol]
  refine filterMap_congr_some _ _ rows (fun r hr => ?_)
  have hjr : j < r.length := (hw r hr) ▸ hj
  simp [List.getElem?_eq_getElem, hjr]

lemma getCol_fit_transform {rows : List (List ℚ)} {scales : List ℚ} {w j : Nat}
    (hw : ∀ r ∈ rows, r.length = w) (hs : scales.length = w) (hj : j < w) :
    getCol (StandardScaler.fit_transform rows scales w) j =
      (getCol rows j).map
        (fun x => (x - listMean (getCol rows j)) / scaleOf (scales[j]?.getD 0)) := by
  have hmlen : (fitMeans rows w).length = w := by simp [fitMeans]
  have hmj : (fitMeans rows w)[j]?.getD 0 = listMean (getCol rows j) := by
    simp [fitMeans, List.getElem?_range, hj]
  rw [StandardScaler.fit_transform, getCol, List.filterMap_map]
  rw [filterMap_congr_some _
    (fun r : List ℚ => (r[j]?.getD 0 - listMean (getCol rows j)) / scaleOf (scales[j]?.getD 0))
    rows (fun r hr => by
      have h := getElem?_stdRow hmlen hs (hw r hr) hj
      simp only [Function.comp] at *
      rw [h, hmj])]
  rw [getCol_map_width hw hj, List.map_map]
  rfl

lemma fit_transform_length (rows : List (List ℚ)) (scales : List ℚ) (w : Nat) :
    (StandardScaler.fit_transform rows scales w).length = rows.length := by
  simp [StandardScaler.fit_transform]

lemma fit_transform_row_length {rows : List (List ℚ)} {scales : List ℚ} {w : Nat}
    (hw : ∀ r ∈ rows, r.length = w) (hs : scales.length = w) :
    ∀ r ∈ StandardScaler.fit_transform rows scales w, r.length = w := by
  intro r hr
  simp only [StandardScaler.fit_transform, List.mem_map] at hr
  obtain ⟨r0, hr0, rfl⟩ := hr
  have hmlen : (fitMeans rows w).length = w := by simp [fitMeans]
  simp [stdRow, List.length_zipWith, List.length_zip, hmlen, hs, hw r0 hr0]

/-- C7 counterexample: on the constant one-column matrix [[1], [1]] the
fitted scale is sqrt(var) = 0 (and 0² is indeed that column's variance, so
this is the scaler's own fit); standardizing yields [[0], [0]], whose
column has standard deviation 0, not approximately 1 — exactly 0 ≠ 1, no
floating tolerance recovers it. -/
theorem standardize_const_column_not_unit_deviation :
    StandardScaler.fit_transform [[1], [1]] [0] 1 = [[0], [0]] ∧
    (0 : ℚ) ^ 2 = listVar (getCol [[1], [1]] 0) ∧
    listVar (getCol (StandardScaler.fit_transform [[1], [1]] [0] 1) 0) = 0 ∧
    (0 : ℚ) ≠ 1 := by
  refine ⟨?_, ?_, ?_, by norm_num⟩ <;>
    norm_num [StandardScaler.fit_transform, fitMeans, stdRow, getCol, listMean, listVar,
      scaleOf, List.range_succ, List.filterMap_cons]

/-- C7 (amended): for every feature matrix and true fitted scales
(scale_j² = column-j variance), the standardized output has the same shape
as the input and each column has mean exactly 0; each column whose input
variance is nonzero has output variance exactly 1 (hence standard
deviation 1).  A constant column (zero variance) instead comes out all
zero. -/
theorem standardize_mean_zero_var_one (rows : List (List ℚ)) (scales : List ℚ) (w : Nat)
    (hw : ∀ r ∈ rows, r.length = w) (hs : scales.length = w)
    (hscale : ∀ j, j < w → scales[j]?.getD 0 ^ 2 = listVar (getCol rows j)) :
    (StandardScaler.fit_transform rows scales w).length = rows.length ∧
    (∀ r ∈ StandardScaler.fit_transform rows scales w, r.length = w) ∧
    (∀ j, j < w → listMean (getCol (StandardScaler.fit_transform rows scales w) j) = 0) ∧
    (∀ j, j < w → listVar (getCol rows j) ≠ 0 →
      listVar (getCol (StandardScaler.fit_transform rows scales w) j) = 1) := by
  refine ⟨fit_transform_length rows scales w, fit_transform_row_length hw hs, ?_, ?_⟩
  · intro j hj
    rw [getCol_fit_transform hw hs hj]
    exact listMean_center_div _ _
  · intro j hj hvar
    rw [getCol_fit_transform hw hs hj]
    exact listVar_center_div _ _ (hscale j hj) hvar

/-- Witness for C7 (amended) on the one-column matrix [[1], [3]], whose
column has mean 2 and variance 1, with fitted scale 1. -/
theorem standardize_mean_zero_var_one_witness :
    (StandardScaler.fit_transform [[1], [3]] [1] 1).length = 2 ∧
    (∀ r ∈ StandardScaler.fit_transform [[1], [3]] [1] 1, r.length = 1) ∧
    (∀ j, j < 1 → listMean (getCol (StandardScaler.fit_transform [[1], [3]] [1] 1) j) = 0) ∧
    (∀ j, j < 1 → listVar (getCol [[1], [3]] j) ≠ 0 →
      listVar (getCol (StandardScaler.fit_transform [[1], [3]] [1] 1) j) = 1) := by
  have h := standardize_mean_zero_var_one [[1], [3]] [1] 1 (by decide) (by decide)
    (by
      intro j hj
      have hj0 : j = 0 := by omega
      subst hj0
      norm_num [listVar, listMean, getCol, List.filterMap_cons])
  simpa using h

lemma selectRows_length {α : Type} (xs : List α) (idx : List Nat)
    (h : ∀ i ∈ idx, i < xs.length) : (selectRows xs idx).length = idx.length := by
  induction idx with
  | nil => rfl
  | cons i t ih =>
    have hi : i < xs.length := h i (List.mem_cons_self i t)
    have ht := ih (fun j hj => h j (List.mem_cons_of_mem i hj))
    simp only [selectRows, List.filterMap_cons, List.getElem?_eq_getElem hi] at ht ⊢
    simp [ht]

lemma mem_selectRows {α : Type} {xs : List α} {idx : List Nat} {r : α}
    (h : r ∈ selectRows xs idx) : r ∈ xs := by
  rw [selectRows, List.mem_filterMap] at h
  obtain ⟨i, _, hi⟩ := h
  exact List.getElem?_mem hi

lemma drop_species_row (r : List Cell) (hr : r.length = 5) :
    ((irisHeader.zip r).filterMap
        (fun p => if (["species"] : List String).contains p.1 then none else some p.2)).length
      = 4 := by
  rcases r with _ | ⟨a, r⟩; · simp at hr
  rcases r with _ | ⟨b, r⟩; · simp at hr
  rcases r with _ | ⟨c, r⟩; · simp at hr
  rcases r with _ | ⟨d, r⟩; · simp at hr
  rcases r with _ | ⟨e, r⟩; · simp at hr
  have hrest : r = [] := by simpa using hr
  subst hrest
  rfl


lemma headD_length_of_forall {l : List (List ℚ)} {w : Nat} (hne : l ≠ [])
    (hw : ∀ r ∈ l, r.length = w) : (l.headD []).length = w := by
  cases l with
  | nil => exact absurd rfl hne
  | cons a t => exact hw a (List.mem_cons_self a t)

/-- C2: on every 150-row lowercase-schema iris frame with well-formed rows
and per-column scales, the preprocess pipeline succeeds; the train features
hold exactly 120 rows, the test features exactly 30 = ceil(0.2·150), every
feature row has exactly 4 numeric entries, and the shuffled test indices
(first 30) and train indices (the rest) are disjoint and together a
permutation of the full row index set. -/
theorem preprocess_split_sizes (df : Frame) (scales : List ℚ) (perm : List Nat)
    (hh : df.header = irisHeader)
    (hn : df.rows.length = 150)
    (hw : ∀ r ∈ df.rows, r.length = 5)
    (hs : scales.length = 4)
    (hperm : perm.Perm (List.range 150)) :
    (∃ out : SplitOut,
      preprocess_pipeline df scales perm = Except.ok out ∧
      out.trainF.length = 120 ∧
      out.testF.length = 30 ∧
      (∀ r ∈ out.trainF, r.length = 4) ∧
      (∀ r ∈ out.testF, r.length = 4)) ∧
    List.Disjoint (perm.take 30) (perm.drop 30) ∧
    (perm.take 30 ++ perm.drop 30).Perm (List.range 150) := by
  obtain ⟨hd, rows⟩ := df
  dsimp only at hh hn hw
  subst hh
  have hdrop : Frame.dropCols ⟨irisHeader, rows⟩ ["species"] = Except.ok
      ⟨irisHeader.filter (fun c => !(["species"] : List String).contains c),
        rows.map (fun r => (irisHeader.zip r).filterMap
          (fun p => if (["species"] : List String).contains p.1 then none else some p.2))⟩ := by
    have hcond : ((["species"] : List String).all fun l => irisHeader.contains l) = true := by
      decide
    simp only [Frame.dropCols]
    rw [if_pos hcond]
  have hcol : Frame.col ⟨irisHeader, rows⟩ "species" = Except.ok (rows.map (fun r =>
      (((irisHeader.zip r).find? (fun p => p.1 == "species")).map Prod.snd).getD
        (Cell.str ""))) := by
    have hcond : (irisHeader.contains "species") = true := by decide
    simp only [Frame.col]
    rw [if_pos hcond]
  set g : List Cell → List Cell := fun r => (irisHeader.zip r).filterMap
      (fun p => if (["species"] : List String).contains p.1 then none else some p.2) with hg
  set Xq : List (List ℚ) := (rows.map g).map (fun r => r.map Cell.toQ) with hXq
  have hXqlen : Xq.length = 150 := by simp [hXq, hn]
  have hXqw : ∀ r ∈ Xq, r.length = 4 := by
    intro r hr
    simp only [hXq, List.mem_map] at hr
    obtain ⟨r1, hr1, rfl⟩ := hr
    obtain ⟨r0, hr0, rfl⟩ := hr1
    simp only [List.length_map, hg]
    exact drop_species_row r0 (hw r0 hr0)
  have hhead : (Xq.headD []).length = 4 :=
    headD_length_of_forall (by intro h; rw [h] at hXqlen; simp at hXqlen) hXqw
  set XS : List (List ℚ) := StandardScaler.fit_transform Xq scales ((Xq.headD []).length)
    with hXS
  set yE : List Nat := LabelEncoder.fit_transform ((rows.map (fun r =>
      (((irisHeader.zip r).find? (fun p => p.1 == "species")).map Prod.snd).getD
        (Cell.str ""))).map Cell.toStr) with hyE
  set nt : Nat := nTestOf XS.length with hnt
  have hXSlen : XS.length = 150 := by rw [hXS, fit_transform_length, hXqlen]
  have hXSw : ∀ r ∈ XS, r.length = 4 := by
    rw [hXS, hhead]
    exact fit_transform_row_length hXqw hs
  have hntv : nt = 30 := by rw [hnt, hXSlen]; rfl
  have hpermlen : perm.length = 150 := hperm.length_eq.trans (List.length_range 150)
  have hbound : ∀ i ∈ perm, i < 150 := fun i hi => List.mem_range.mp (hperm.mem_iff.mp hi)
  have hnodup : perm.Nodup := hperm.nodup_iff.mpr (List.nodup_range 150)
  refine ⟨⟨⟨selectRows XS (perm.drop nt), selectRows XS (perm.take nt),
      selectRows yE (perm.drop nt), selectRows yE (perm.take nt)⟩,
      rfl, ?_, ?_, ?_, ?_⟩, ?_, ?_⟩
  · rw [selectRows_length XS _ (fun i hi => by
      rw [hXSlen]; exact hbound i (List.mem_of_mem_drop hi))]
    rw [List.length_drop, hpermlen, hntv]
  · rw [selectRows_length XS _ (fun i hi => by
      rw [hXSlen]; exact hbound i (List.mem_of_mem_take hi))]
    rw [List.length_take, hpermlen, hntv]
    norm_num
  · exact fun r hr => hXSw r (mem_selectRows hr)
  · exact fun r hr => hXSw r (mem_selectRows hr)
  · exact List.disjoint_take_drop hnodup le_rfl
  · rw [List.take_append_drop]
    exact hperm

/-- Witness for C2 on a concrete 150-row frame (all rows identical) with
the identity shuffle. -/
theorem preprocess_split_sizes_witness :
    (∃ out : SplitOut,
      preprocess_pipeline ⟨irisHeader, List.replicate 150
          [Cell.num 1, Cell.num 2, Cell.num 3, Cell.num 4, Cell.str "setosa"]⟩
        [1, 1, 1, 1] (List.range 150) = Except.ok out ∧
      out.trainF.length = 120 ∧
      out.testF.length = 30 ∧
      (∀ r ∈ out.trainF, r.length = 4) ∧
      (∀ r ∈ out.testF, r.length = 4)) ∧
    List.Disjoint ((List.range 150).take 30) ((List.range 150).drop 30) ∧
    ((List.range 150).take 30 ++ (List.range 150).drop 30).Perm (List.range 150) :=
  preprocess_split_sizes
    ⟨irisHeader, List.replicate 150
      [Cell.num 1, Cell.num 2, Cell.num 3, Cell.num 4, Cell.str "setosa"]⟩
    [1, 1, 1, 1] (List.range 150) rfl (by simp)
    (fun r hr => by rw [List.eq_of_mem_replicate hr]; rfl) rfl (List.Perm.refl _)

/-- C9: the two preprocessing implementations are not equivalent.  On a
lowercase-schema table the route version succeeds and returns a proper
train/test split (1 train row + 1 test row out of 2), while the services
version raises a KeyError on its assumed uppercase "Species"/"Id" columns;
on an uppercase-schema table the services version succeeds and returns the
raw standardized array with all rows (no split), while the route version
raises on its assumed lowercase "species" column. -/
theorem preprocess_implementations_diverge :
    (∃ out : SplitOut,
      preprocess_pipeline ⟨irisHeader,
          [[Cell.num 1, Cell.num 2, Cell.num 3, Cell.num 4, Cell.str "setosa"],
           [Cell.num 2, Cell.num 3, Cell.num 4, Cell.num 5, Cell.str "versicolor"]]⟩
        [1, 1, 1, 1] [1, 0] = Except.ok out ∧
      out.trainF.length = 1 ∧ out.testF.length = 1) ∧
    (services_preprocess_iris_data ⟨irisHeader,
        [[Cell.num 1, Cell.num 2, Cell.num 3, Cell.num 4, Cell.str "setosa"],
         [Cell.num 2, Cell.num 3, Cell.num 4, Cell.num 5, Cell.str "versicolor"]]⟩
      [1, 1, 1, 1] = Except.error "KeyError: Species, Id") ∧
    (∃ Xy : List (List ℚ) × List Nat,
      services_preprocess_iris_data
        ⟨["Id", "SepalLengthCm", "SepalWidthCm", "PetalLengthCm", "PetalWidthCm", "Species"],
          [[Cell.num 1, Cell.num 1, Cell.num 2, Cell.num 3, Cell.num 4, Cell.str "setosa"],
           [Cell.num 2, Cell.num 2, Cell.num 3, Cell.num 4, Cell.num 5,
             Cell.str "versicolor"]]⟩
        [1, 1, 1, 1] = Except.ok Xy ∧ Xy.1.length = 2) ∧
    (∃ e : String, preprocess_pipeline
        ⟨["Id", "SepalLengthCm", "SepalWidthCm", "PetalLengthCm", "PetalWidthCm", "Species"],
          [[Cell.num 1, Cell.num 1, Cell.num 2, Cell.num 3, Cell.num 4, Cell.str "setosa"],
           [Cell.num 2, Cell.num 2, Cell.num 3, Cell.num 4, Cell.num 5,
             Cell.str "versicolor"]]⟩
        [1, 1, 1, 1] [1, 0] = Except.error e) :=
  ⟨⟨_, rfl, rfl, rfl⟩, rfl, ⟨_, rfl, rfl⟩, ⟨_, rfl⟩⟩
